import Mathlib

/-!
# Verification of the paper-processing pipeline

A shallow embedding in Lean 4 of the `PaperProcessor` class of
`cloud_run/paper_discovery/services/paper_processor.py`, together with proofs
of the specified properties of validation, deduplication, quality scoring,
enrichment, standardization and statistics reporting.

Modelling conventions:
* Python `str` is modelled by `String`; regular-expression operations of the
  source are translated into explicit recursive functions on `List Char`
  (ASCII character classes; the source only ever feeds them ASCII-ish
  bibliographic text).
* Python floats are modelled by `ℚ` (all constants in the source are decimal
  literals).
* The MD5 digest of `_create_content_hash` is modelled as the identity on the
  digested string: two digests are equal exactly when the digested strings
  are equal (an ideal, collision-free hash).
* Python `set` objects used only for insertion and membership are modelled by
  `List String` with `∈`.
* Wall-clock values (`datetime.utcnow()` timestamps, processing duration) are
  not modelled; the publication date of a record is modelled by its age in
  days at processing time (`Option Int`, `none` for a missing or unparseable
  date — the source scores both neutrally).
-/

namespace PaperPipeline

/-! ## Python character and string primitives -/

/-- The ASCII whitespace characters matched by Python's `\s` and `str.strip`. -/
def isPySpace (c : Char) : Bool :=
  c = ' ' || c = '\t' || c = '\n' || c = '\r' || c = '\x0b' || c = '\x0c'

/-- Python `str.lower` on one character (ASCII). -/
def pyCharToLower (c : Char) : Char :=
  if 65 ≤ c.toNat ∧ c.toNat ≤ 90 then Char.ofNat (c.toNat + 32) else c

/-- Python `str.upper` on one character (ASCII). -/
def pyCharToUpper (c : Char) : Char :=
  if 97 ≤ c.toNat ∧ c.toNat ≤ 122 then Char.ofNat (c.toNat - 32) else c

/-- Python `str.lower`. -/
def strLower (s : String) : String := ⟨s.data.map pyCharToLower⟩

/-- Python `str.upper`. -/
def strUpper (s : String) : String := ⟨s.data.map pyCharToUpper⟩

/-- Python slicing `s[:n]`. -/
def strTake (s : String) (n : Nat) : String := ⟨s.data.take n⟩

/-- Tests whether `l1` is a leading segment of `l2`. -/
def startsWithL : List Char → List Char → Bool
  | [], _ => true
  | _ :: _, [] => false
  | a :: as, b :: bs => a = b && startsWithL as bs

/-- Split a character list at every separator recognized by `p`, keeping the
(possibly empty) pieces — Python `str.split(sep)` for a one-character `sep`. -/
def splitOnPred (p : Char → Bool) : List Char → List (List Char)
  | [] => [[]]
  | c :: rest =>
    match splitOnPred p rest with
    | [] => [[]]
    | w :: ws => if p c then [] :: w :: ws else (c :: w) :: ws

/-- Python string comparison: lexicographic by code point. -/
def charLt (a b : Char) : Bool := a.toNat < b.toNat

/-- Lexicographic `≤` on character lists, Python's string order. -/
def lexLe : List Char → List Char → Bool
  | [], _ => true
  | _ :: _, [] => false
  | a :: as, b :: bs =>
    if charLt a b then true else if charLt b a then false else lexLe as bs

/-- Order `≤` on strings by code point, Python's string order. -/
def strLe (a b : String) : Bool := lexLe a.data b.data

/-- Insert into a `strLe`-sorted list. -/
def insertSorted (x : String) : List String → List String
  | [] => [x]
  | y :: ys => if strLe x y then x :: y :: ys else y :: insertSorted x ys

/-- Python `sorted` on a list of strings (the order is total, so insertion
sort produces exactly the `sorted` output). -/
def pySorted (l : List String) : List String := l.foldr insertSorted []

/-- Python `str.strip()` on a character list. -/
def pyStripList (cs : List Char) : List Char :=
  ((cs.dropWhile isPySpace).reverse.dropWhile isPySpace).reverse

/-- Python `str.strip()`. -/
def pyStrip (s : String) : String :=
  ⟨pyStripList s.data⟩

/-- Python `re.sub(r'\s+', ' ', ·)`: every maximal whitespace run becomes one space.
The flag records whether the previous character was whitespace. -/
def collapseWsAux : Bool → List Char → List Char
  | _, [] => []
  | prevSpace, c :: rest =>
    if isPySpace c then
      if prevSpace then collapseWsAux true rest
      else ' ' :: collapseWsAux true rest
    else c :: collapseWsAux false rest

/-- Python `re.sub(r'&[a-zA-Z]+;', '', ·)`: drop HTML entity references (an `&`, one
or more ASCII letters, then `;`), scanning left to right exactly as `re.sub`
does: on a match the scan resumes after the `;`, otherwise the character is
kept and the scan moves one character on.  The recursion is made structural
on a fuel argument (initialized to the list length, which the scan position
never outruns) so that the definition computes by kernel reduction. -/
def removeEntitiesFuel : Nat → List Char → List Char
  | _, [] => []
  | 0, cs => cs
  | fuel + 1, c :: rest =>
    if c = '&' then
      let letters := rest.takeWhile Char.isAlpha
      let after := rest.drop letters.length
      if ¬ letters.isEmpty ∧ after.head? = some ';' then
        removeEntitiesFuel fuel (after.drop 1)
      else c :: removeEntitiesFuel fuel rest
    else c :: removeEntitiesFuel fuel rest

/-- See `removeEntitiesFuel`. -/
def removeEntities (cs : List Char) : List Char := removeEntitiesFuel cs.length cs

/-- Python `re.sub(r'<[^>]+>', '', ·)`: drop tag-like substrings (a `<`, one or more
non-`>` characters, then `>`), scanning left to right; fuel as in
`removeEntitiesFuel`. -/
def removeTagsFuel : Nat → List Char → List Char
  | _, [] => []
  | 0, cs => cs
  | fuel + 1, c :: rest =>
    if c = '<' then
      let inner := rest.takeWhile (fun d => d ≠ '>')
      let after := rest.drop inner.length
      if ¬ inner.isEmpty ∧ after.head? = some '>' then
        removeTagsFuel fuel (after.drop 1)
      else c :: removeTagsFuel fuel rest
    else c :: removeTagsFuel fuel rest

/-- See `removeTagsFuel`. -/
def removeTags (cs : List Char) : List Char := removeTagsFuel cs.length cs

/-- Embeds `PaperProcessor._clean_text`: strip, collapse whitespace (the `\n+` and
`\t+` substitutions of the source are identities after the `\s+` one), remove
HTML entities, remove tags, and strip again. -/
def cleanText (text : String) : String :=
  ⟨pyStripList (removeTags (removeEntities (collapseWsAux false (pyStripList text.data))))⟩

/-- Python `re.sub(r'^(arXiv:|arxiv:)\s*', '', ·, flags=re.IGNORECASE)` of
`_clean_paper_text`: under `IGNORECASE` this removes a leading `arxiv:`
marker in any letter case, together with the whitespace following it.  The
`^` anchor (no `MULTILINE`) means at most the start of the string matches. -/
def stripLeadingArxiv (title : String) : String :=
  if startsWithL "arxiv:".data (strLower title).data then
    ⟨(title.data.drop 6).dropWhile isPySpace⟩
  else title

/-- Embeds `PaperProcessor._clean_author_name`: whitespace-normalize, and reorder a
`"Last, First"` name (exactly one comma, two parts) to `"First Last"`. -/
def cleanAuthorName (author : String) : String :=
  if author = "" then ""
  else
    let a : String := ⟨collapseWsAux false (pyStripList author.data)⟩
    if a.data.any (· = ',') then
      match (splitOnPred (· = ',') a.data).map (fun w => pyStrip ⟨w⟩) with
      | [last, first] => first ++ " " ++ last
      | _ => a
    else a

/-- The `category_mapping` table of `_standardize_categories`. -/
def categoryMapping : List (String × String) :=
  [("cs.ai", "cs.AI"), ("cs.lg", "cs.LG"), ("cs.ir", "cs.IR"),
   ("cs.cv", "cs.CV"), ("cs.cl", "cs.CL"), ("stat.ml", "stat.ML")]

/-- Embeds `PaperProcessor._standardize_categories`: skip empty codes, lowercase and
strip, map known codes through `categoryMapping` (otherwise uppercase), and
drop duplicates keeping the first occurrence. -/
def standardizeCategories (categories : List String) : List String :=
  categories.foldl
    (fun standardized cat =>
      if cat = "" then standardized
      else
        let c := pyStrip (strLower cat)
        let mapped := ((categoryMapping.lookup c).getD (strUpper c))
        if mapped ∈ standardized then standardized else standardized ++ [mapped])
    []

/-! ## The data model

One record type is used for every stage up to standardization, mirroring the
Python dictionaries that flow through the pipeline.  A missing optional text
field is modelled by `""` (for `abstract`) — the source reads text fields
with `paper.get(·, '')` and treats the empty string and a missing value the
same way everywhere it branches.  `pubDaysOld` is the record's age in days at
processing time; `none` models a missing or unparseable publication date,
which `_score_publication_recency` scores neutrally. -/

structure Paper where
  paper_id : String
  title : String
  abstract : String
  authors : List String
  categories : List String
  pubDaysOld : Option Int
  venue : Option String
  arxiv_id : Option String
  semantic_scholar_id : Option String
  full_text : Option String
  deriving DecidableEq, Repr

/-- Embeds `PaperProcessor._clean_paper_text`: clean the title (plus the arXiv
marker removal), the abstract, every author name and the category list.  The
source guards each field with a Python truthiness test; the guards are kept
(they are identities on the guarded-out empty values). -/
def cleanPaperText (p : Paper) : Paper :=
  { p with
    title := if p.title ≠ "" then stripLeadingArxiv (cleanText p.title) else p.title
    abstract := if p.abstract ≠ "" then cleanText p.abstract else p.abstract
    authors := if p.authors ≠ [] then p.authors.map cleanAuthorName else p.authors
    categories :=
      if p.categories ≠ [] then standardizeCategories p.categories else p.categories }

/-- Modelled from the spec: the pydantic model `PaperData` is constructed by
the validator (`PaperData(**cleaned_paper)` inside a `try`), but its
definition is not among the sources (`models/paper_models.py` only says "Add
these to your existing paper_models.py" and extends it).  Per the spec's
ValidatedRecord invariant ("identifier and title are non-empty") construction
fails exactly when the cleaned identifier or title is empty, and per §4.2
"all other cleaning failures … degrade gracefully: invalid or unparseable
fields are set to unknown/neutral rather than causing rejection" no other
field causes a failure. -/
def paperDataCheck (p : Paper) : Option Paper :=
  if p.paper_id = "" ∨ p.title = "" then none else some p

/-- The per-record body of `_validate_and_clean_papers`: reject when the raw
`paper_id` or `title` is falsy, clean the text fields, and validate through
the `PaperData` model (any exception drops the record). -/
def validatePaper (p : Paper) : Option Paper :=
  if p.paper_id = "" ∨ p.title = "" then none
  else paperDataCheck (cleanPaperText p)

/-- Embeds `PaperProcessor._validate_and_clean_papers`: the loop with `continue` on
rejection is a `filterMap` of the per-record validation. -/
def validateAndCleanPapers (papers : List Paper) : List Paper :=
  papers.filterMap validatePaper

/-! ## Deduplication -/

/-- Embeds `PaperProcessor._create_content_hash`: the digested string.  The MD5
digest itself is modelled as the identity (an ideal collision-free hash), so
fingerprint equality is equality of the digested strings.  Note the source's
`'|'.join(filter(None, content_parts))`: empty components are dropped before
joining. -/
def contentHash (p : Paper) : String :=
  let contentParts : List String :=
    [strLower p.title,
     strTake (strLower p.abstract) 500,
     String.intercalate "|" (pySorted p.authors)]
  String.intercalate "|" (contentParts.filter (fun s => s ≠ ""))

/-- The triple the spec says the fingerprint digests: lowercased title, first
500 characters of the lowercased abstract, sorted author list joined by a
delimiter. -/
def contentTriple (p : Paper) : String × String × String :=
  (strLower p.title, strTake (strLower p.abstract) 500,
   String.intercalate "|" (pySorted p.authors))

/-- Modelled from the spec's words, for comparison with `contentHash`: "a
deterministic digest over (lowercased title, first 500 characters of
lowercased abstract, sorted author list joined by a delimiter)" — the digest
input joins all three components of the triple, empty or not. -/
def contentHashSpec (p : Paper) : String :=
  (contentTriple p).1 ++ "|" ++ (contentTriple p).2.1 ++ "|" ++ (contentTriple p).2.2

/-- The `'|'`-join of the non-empty components of a fingerprint triple: what
`_create_content_hash` actually digests. -/
def joinNonEmptyTriple (t : String × String × String) : String :=
  String.intercalate "|" ([t.1, t.2.1, t.2.2].filter (fun s => s ≠ ""))

/-- Python `title.lower().split()`: the set of whitespace-separated words of
the lowercased string. -/
def wordSet (s : String) : Finset String :=
  ((splitOnPred isPySpace (strLower s).data).map (fun w => (⟨w⟩ : String))).filter
    (fun w => w ≠ "") |>.toFinset

/-- Jaccard similarity of the lowercased title word sets, as a rational
(`0` when both word sets are empty, matching the source's guard which treats
an empty union as "not a near-duplicate"). -/
def jaccardQ (a b : String) : ℚ :=
  (((wordSet a ∩ wordSet b).card : ℚ)) / (((wordSet a ∪ wordSet b).card : ℚ))

/-- Embeds `PaperProcessor._is_near_duplicate_title`: a title shorter than 10
characters is never a near-duplicate; otherwise the title's word set is
compared with every already-accepted paper's title word set, and Jaccard
similarity strictly above `0.8` (with a non-empty union) is a near-duplicate. -/
def isNearDuplicateTitle (title : String) (existingPapers : List Paper) : Bool :=
  if title = "" ∨ String.length title < 10 then false
  else
    let titleWords := wordSet title
    existingPapers.any fun existingPaper =>
      let existingTitle := existingPaper.title
      if existingTitle = "" then false
      else
        let existingWords := wordSet existingTitle
        let inter := titleWords ∩ existingWords
        let uni := titleWords ∪ existingWords
        decide (uni.card ≠ 0 ∧ ((inter.card : ℚ) / (uni.card : ℚ) > 4/5))

/-- The loop state of `_deduplicate_papers`: the seen-identifier set (seeded
with the caller's already-known identifiers), the seen-fingerprint set and
the accepted output in order.  The Python `set`s are used only for insertion
and membership and are modelled by lists with `∈`. -/
structure DedupState where
  seenIds : List String
  seenHashes : List String
  out : List Paper

/-- One iteration of the `_deduplicate_papers` loop: drop on an identifier
collision, then on a fingerprint collision, then on a near-duplicate title;
otherwise record the identifier and fingerprint and append the paper. -/
def dedupStep (st : DedupState) (p : Paper) : DedupState :=
  if p.paper_id ∈ st.seenIds then st
  else if contentHash p ∈ st.seenHashes then st
  else if isNearDuplicateTitle p.title st.out then st
  else ⟨p.paper_id :: st.seenIds, contentHash p :: st.seenHashes, st.out ++ [p]⟩

/-- Embeds `PaperProcessor._deduplicate_papers`. -/
def deduplicatePapers (papers : List Paper) (existingIds : List String) : List Paper :=
  (papers.foldl dedupStep ⟨existingIds, [], []⟩).out

/-- The near-duplicate invariant between an earlier output record `p` and a
later one `q`: when both titles are at least 10 characters long, their
Jaccard similarity is at most `0.8`. -/
def nearOkRel (p q : Paper) : Prop :=
  10 ≤ String.length p.title → 10 ≤ String.length q.title →
    jaccardQ p.title q.title ≤ 4/5

/-- The invariant maintained by the `_deduplicate_papers` loop: accepted
identifiers and fingerprints are recorded in the seen sets, the caller's
known identifiers stay in the seen-identifier set, and the output has
pairwise distinct identifiers, pairwise distinct fingerprints, no known
identifier, and pairwise `nearOkRel`. -/
def DedupInv (existingIds : List String) (st : DedupState) : Prop :=
  (∀ p ∈ st.out, p.paper_id ∈ st.seenIds) ∧
  (∀ p ∈ st.out, contentHash p ∈ st.seenHashes) ∧
  (∀ i ∈ existingIds, i ∈ st.seenIds) ∧
  (∀ p ∈ st.out, p.paper_id ∉ existingIds) ∧
  st.out.Pairwise (fun p q => p.paper_id ≠ q.paper_id) ∧
  st.out.Pairwise (fun p q => contentHash p ≠ contentHash q) ∧
  st.out.Pairwise nearOkRel

/-! ## Quality scoring

The regex searches of `_score_title_quality` and `_score_abstract_quality`
are translated into explicit matchers.  All three `generic_patterns` are
anchored with `^`, so `re.search` is a match at the start of the (lowercased)
title; the `key_indicators` are `\b(w1|w2|…)\b` alternations, i.e. a
whole-word occurrence of one of the alternatives. -/

/-- Consume one-or-more whitespace characters (`\s+`); greedily taking the
whole run is complete here because every continuation of these patterns
starts with a non-whitespace character. -/
def afterWs1 : List Char → Option (List Char)
  | [] => none
  | c :: rest => if isPySpace c then some (rest.dropWhile isPySpace) else none

/-- Consume a literal word. -/
def afterLit (w : String) (cs : List Char) : Option (List Char) :=
  if startsWithL w.data cs then some (cs.drop w.data.length) else none

/-- Matches `^(a|an|the)\s+(study|analysis|review|survey|approach|method)\s+of`. -/
def matchGeneric1 (cs : List Char) : Bool :=
  ["a", "an", "the"].any fun w =>
    match afterLit w cs with
    | none => false
    | some r1 =>
      match afterWs1 r1 with
      | none => false
      | some r2 =>
        ["study", "analysis", "review", "survey", "approach", "method"].any fun n =>
          match afterLit n r2 with
          | none => false
          | some r3 =>
            match afterWs1 r3 with
            | none => false
            | some r4 => startsWithL "of".data r4

/-- Matches `^(towards?|on)\s+`. -/
def matchGeneric2 (cs : List Char) : Bool :=
  ["toward", "towards", "on"].any fun w =>
    match afterLit w cs with
    | none => false
    | some r1 => (afterWs1 r1).isSome

/-- Matches `^(improving|enhancing|optimizing)\s+`. -/
def matchGeneric3 (cs : List Char) : Bool :=
  ["improving", "enhancing", "optimizing"].any fun w =>
    match afterLit w cs with
    | none => false
    | some r1 => (afterWs1 r1).isSome

/-- Computes `any(re.search(pattern, title.lower()) for pattern in generic_patterns)`. -/
def matchesGenericPattern (titleLower : String) : Bool :=
  matchGeneric1 titleLower.data || matchGeneric2 titleLower.data ||
    matchGeneric3 titleLower.data

/-- The `technical_terms` list of `_score_title_quality`. -/
def technicalTerms : List String :=
  ["algorithm", "model", "neural", "deep", "machine learning",
   "optimization", "classification", "regression", "clustering"]

/-- Python substring containment `needle in hay` on character lists. -/
def hasSubL (needle : List Char) : List Char → Bool
  | [] => startsWithL needle []
  | c :: rest => startsWithL needle (c :: rest) || hasSubL needle rest

/-- Python `needle in hay` for strings. -/
def strContainsSub (hay needle : String) : Bool := hasSubL needle.data hay.data

/-- A regex `\w` word character (ASCII). -/
def isWordChar (c : Char) : Bool := c.isAlpha || c.isDigit || c = '_'

/-- A pattern character: a literal, or the regex wildcard `.` (which matches
any character except a newline). -/
inductive PChar where
  | lit (c : Char)
  | anyc
  deriving DecidableEq

/-- Match a pattern against the front of a character list, returning the
remainder on success. -/
def matchPat : List PChar → List Char → Option (List Char)
  | [], cs => some cs
  | _ :: _, [] => none
  | p :: ps, c :: cs =>
    match p with
    | .lit l => if l = c then matchPat ps cs else none
    | .anyc => if c = '\n' then none else matchPat ps cs

/-- Read a regex alternative such as `state.of.the.art` into a pattern:
`.` becomes the wildcard, every other character is literal. -/
def patOfWord (s : String) : List PChar :=
  s.data.map (fun c => if c = '.' then PChar.anyc else PChar.lit c)

/-- Boundary `\b` holds before the match: the previous character (if any) is not a
word character.  (Every alternative used in the source begins and ends with
a word character.) -/
def boundaryBefore : Option Char → Bool
  | none => true
  | some c => ¬ isWordChar c

/-- Boundary `\b` holds after the match: the next character (if any) is not a word
character. -/
def boundaryAfter : List Char → Bool
  | [] => true
  | c :: _ => ¬ isWordChar c

/-- Implements `re.search(r'\b' + pat + r'\b', s)` for one alternative: scan every
position, carrying the previous character for the left boundary. -/
def hasWordPatAux (pat : List PChar) : Option Char → List Char → Bool
  | _, [] => false
  | prev, c :: cs =>
    (boundaryBefore prev &&
      (match matchPat pat (c :: cs) with
       | some rest => boundaryAfter rest
       | none => false)) ||
    hasWordPatAux pat (some c) cs

/-- Whole-word (`\b`-delimited) occurrence of a regex alternative in `s`. -/
def hasWordPat (s w : String) : Bool := hasWordPatAux (patOfWord w) none s.data

/-- The three `key_indicators` alternation classes of
`_score_abstract_quality`. -/
def keyIndicatorClasses : List (List String) :=
  [["method", "approach", "algorithm", "technique"],
   ["result", "finding", "performance", "accuracy"],
   ["conclusion", "demonstrate", "show", "achieve"]]

/-- Embeds `PaperProcessor._score_title_quality`. -/
def scoreTitleQuality (title : String) : ℚ :=
  if title = "" then 0
  else
    let lenScore : ℚ :=
      if 10 ≤ String.length title ∧ String.length title ≤ 500 then 2/5 else 0
    let genericScore : ℚ :=
      if ¬ (matchesGenericPattern (strLower title) = true) then 3/10 else 0
    let techScore : ℚ :=
      if technicalTerms.any (fun term => strContainsSub (strLower title) term) = true
      then 3/10 else 0
    min (lenScore + genericScore + techScore) 1

/-- Embeds `PaperProcessor._score_abstract_quality`. -/
def scoreAbstractQuality (abstract : String) : ℚ :=
  if abstract = "" then 0
  else
    let lenScore : ℚ :=
      if 100 ≤ String.length abstract ∧ String.length abstract ≤ 10000 then 2/5 else 0
    let indicatorsFound : Nat :=
      (keyIndicatorClasses.filter
        (fun ws => ws.any (fun w => hasWordPat (strLower abstract) w))).length
    min (lenScore + ((indicatorsFound : ℚ) / 3) * (3/5)) 1

/-- Embeds `PaperProcessor._score_author_credibility`. -/
def scoreAuthorCredibility (authors : List String) : ℚ :=
  if authors = [] then 3/10
  else
    let base : ℚ := 1/2
    let multi : ℚ := if 1 < authors.length then 1/5 else 0
    let reasonable : ℚ := if 2 ≤ authors.length ∧ authors.length ≤ 8 then 3/10 else 0
    min (base + multi + reasonable) 1

/-- The `relevant_categories` list of `_score_category_relevance` (also
`settings.RELEVANT_CATEGORIES`). -/
def relevantCategories : List String :=
  ["cs.AI", "cs.LG", "cs.IR", "cs.CV", "cs.CL", "stat.ML", "cs.HC", "cs.DB"]

/-- Embeds `PaperProcessor._score_category_relevance`. -/
def scoreCategoryRelevance (categories : List String) : ℚ :=
  if categories = [] then 0
  else
    let relevantCount := (categories.filter (fun cat => cat ∈ relevantCategories)).length
    if relevantCount = 0 then 1/5
    else min ((relevantCount : ℚ) / (categories.length : ℚ)) 1

/-- Embeds `PaperProcessor._score_publication_recency`, as a function of the
record's age in days (`none`: missing or unparseable date, scored neutrally). -/
def scorePublicationRecency (pubDaysOld : Option Int) : ℚ :=
  match pubDaysOld with
  | none => 1/2
  | some daysOld =>
    if daysOld ≤ 30 then 1
    else if daysOld ≤ 90 then 4/5
    else if daysOld ≤ 180 then 3/5
    else if daysOld ≤ 365 then 2/5
    else 1/5

/-- The `QualityScore` record (pydantic model, six floats). -/
structure QualityScore where
  title_score : ℚ
  abstract_score : ℚ
  author_score : ℚ
  category_score : ℚ
  recency_score : ℚ
  overall_score : ℚ
  deriving DecidableEq, Repr

/-- Embeds `PaperProcessor._calculate_quality_score`: the five sub-scores and the
fixed weighted overall score (weights 0.25 / 0.30 / 0.15 / 0.20 / 0.10). -/
def calculateQualityScore (p : Paper) : QualityScore :=
  let titleScore := scoreTitleQuality p.title
  let abstractScore := scoreAbstractQuality p.abstract
  let authorScore := scoreAuthorCredibility p.authors
  let categoryScore := scoreCategoryRelevance p.categories
  let recencyScore := scorePublicationRecency p.pubDaysOld
  { title_score := titleScore
    abstract_score := abstractScore
    author_score := authorScore
    category_score := categoryScore
    recency_score := recencyScore
    overall_score :=
      (1/4) * titleScore + (3/10) * abstractScore + (3/20) * authorScore +
        (1/5) * categoryScore + (1/10) * recencyScore }

/-- Embeds `settings.MIN_QUALITY_SCORE` (default `0.4`). -/
def MIN_QUALITY_SCORE : ℚ := 2/5

/-- Embeds `PaperProcessor._assess_and_filter_quality`, with the minimum-score
threshold as a parameter (it is injected configuration in the source): score
every paper, attach the score, and keep those with
`overall_score >= minScore`. -/
def assessAndFilterQuality (minScore : ℚ) (papers : List Paper) :
    List (Paper × QualityScore) :=
  papers.filterMap fun p =>
    let qualityScore := calculateQualityScore p
    if minScore ≤ qualityScore.overall_score then some (p, qualityScore) else none

/-! ## Enrichment -/

/-- The word counts computed by `_calculate_word_count` (Python `split()`
word counting). -/
structure WordCount where
  title_words : Nat
  abstract_words : Nat
  total_words : Nat
  deriving DecidableEq, Repr

/-- Number of Python `split()` words of a string. -/
def pyWordCount (s : String) : Nat :=
  ((splitOnPred isPySpace s.data).filter (fun w => ¬ w.isEmpty)).length

/-- Embeds `PaperProcessor._calculate_word_count`. -/
def calculateWordCount (p : Paper) : WordCount :=
  { title_words := pyWordCount p.title
    abstract_words := pyWordCount p.abstract
    total_words := pyWordCount p.title + pyWordCount p.abstract }

/-- The `relevance_keywords` table of `_extract_relevance_indicators`. -/
def relevanceKeywords : List (String × List String) :=
  [("recommendation", ["recommend", "recommendation", "recommender", "suggest"]),
   ("ecommerce", ["ecommerce", "e-commerce", "retail", "shopping", "purchase", "buy"]),
   ("personalization", ["personaliz", "individual", "custom", "tailor"]),
   ("collaborative_filtering", ["collaborative", "filtering", "matrix factorization"]),
   ("content_based", ["content-based", "content based", "item-based"]),
   ("deep_learning", ["deep learning", "neural network", "transformer", "embedding"]),
   ("machine_learning", ["machine learning", "classification", "clustering", "regression"])]

/-- The relevance-indicator map: per-bucket keyword-hit counts (in table
order, as the Python dict preserves insertion order), the total, and the
"highly relevant" flag. -/
structure RelevanceIndicators where
  bucketCounts : List (String × Nat)
  total_relevance_score : Nat
  is_highly_relevant : Bool
  deriving DecidableEq, Repr

/-- Embeds `PaperProcessor._extract_relevance_indicators`: count, per bucket, how
many of its keywords occur (case-insensitive substring) in
`f"{title} {abstract}".lower()`; total them; flag totals `≥ 3`. -/
def extractRelevanceIndicators (p : Paper) : RelevanceIndicators :=
  let textContent := strLower (p.title ++ " " ++ p.abstract)
  let counts := relevanceKeywords.map fun bucket =>
    (bucket.1, (bucket.2.filter (fun keyword => strContainsSub textContent keyword)).length)
  let total := (counts.map (fun c => c.2)).sum
  { bucketCounts := counts
    total_relevance_score := total
    is_highly_relevant := 3 ≤ total }

/-- The content-analysis map of `_analyze_content`: six boolean structural
signals and the technical-depth score. -/
structure ContentAnalysis where
  has_methodology : Bool
  has_evaluation : Bool
  has_comparison : Bool
  mentions_dataset : Bool
  is_survey : Bool
  is_tutorial : Bool
  technical_depth_score : ℚ
  deriving DecidableEq, Repr

/-- Implements `re.search(r'\b(w1|w2|…)\b', s)` for an alternation of regex words
(`state.of.the.art` contains wildcards). -/
def hasAnyWord (s : String) (ws : List String) : Bool :=
  ws.any (fun w => hasWordPat s w)

/-- Embeds `PaperProcessor._analyze_content`. -/
def analyzeContent (p : Paper) : ContentAnalysis :=
  let titleLower := strLower p.title
  let abstractLower := strLower p.abstract
  let hasMethodology := hasAnyWord abstractLower ["method", "approach", "algorithm", "technique"]
  let hasEvaluation := hasAnyWord abstractLower ["evaluat", "experiment", "result", "performance"]
  let hasComparison := hasAnyWord abstractLower ["compar", "baseline", "state.of.the.art"]
  let mentionsDataset := hasAnyWord abstractLower ["dataset", "data set", "benchmark", "corpus"]
  let technicalIndicators : Nat :=
    (if hasMethodology then 1 else 0) + (if hasEvaluation then 1 else 0) +
      (if hasComparison then 1 else 0) + (if mentionsDataset then 1 else 0)
  { has_methodology := hasMethodology
    has_evaluation := hasEvaluation
    has_comparison := hasComparison
    mentions_dataset := mentionsDataset
    is_survey := hasAnyWord titleLower ["survey", "review", "overview"]
    is_tutorial := hasAnyWord titleLower ["tutorial", "introduction", "primer"]
    technical_depth_score := (technicalIndicators : ℚ) / 4 }

/-- An enriched record: the scored paper plus the derived fields of
`_enrich_paper_data` (the wall-clock `processing_timestamp` is not
modelled). -/
structure EnrichedPaper where
  paper : Paper
  quality_score : QualityScore
  word_count : WordCount
  author_count : Nat
  category_count : Nat
  relevance_indicators : RelevanceIndicators
  content_analysis : ContentAnalysis
  deriving DecidableEq, Repr

/-- The per-record body of `_enrich_paper_data`. -/
def enrichPaper (pq : Paper × QualityScore) : EnrichedPaper :=
  { paper := pq.1
    quality_score := pq.2
    word_count := calculateWordCount pq.1
    author_count := pq.1.authors.length
    category_count := pq.1.categories.length
    relevance_indicators := extractRelevanceIndicators pq.1
    content_analysis := analyzeContent pq.1 }

/-- Embeds `PaperProcessor._enrich_paper_data`: every paper is enriched, none is
dropped. -/
def enrichPaperData (papers : List (Paper × QualityScore)) : List EnrichedPaper :=
  papers.map enrichPaper

/-! ## Standardization and statistics -/

/-- The persisted projection built by `_standardize_for_storage` (the
wall-clock `created_at` / `processing_timestamp` fields are not modelled). -/
structure FinalRecord where
  paper_id : String
  title : String
  abstract : String
  authors : List String
  publication_date : Option Int
  venue : Option String
  arxiv_id : Option String
  semantic_scholar_id : Option String
  categories : List String
  full_text : Option String
  quality_score : QualityScore
  word_count : WordCount
  relevance_indicators : RelevanceIndicators
  content_analysis : ContentAnalysis
  processor_version : String
  processing_pipeline : String
  deriving DecidableEq, Repr

/-- The per-record body of `_standardize_for_storage`. -/
def standardizePaper (e : EnrichedPaper) : FinalRecord :=
  { paper_id := e.paper.paper_id
    title := e.paper.title
    abstract := e.paper.abstract
    authors := e.paper.authors
    publication_date := e.paper.pubDaysOld
    venue := e.paper.venue
    arxiv_id := e.paper.arxiv_id
    semantic_scholar_id := e.paper.semantic_scholar_id
    categories := e.paper.categories
    full_text := e.paper.full_text
    quality_score := e.quality_score
    word_count := e.word_count
    relevance_indicators := e.relevance_indicators
    content_analysis := e.content_analysis
    processor_version := "1.0"
    processing_pipeline := "paper_discovery_v1" }

/-- Embeds `PaperProcessor._standardize_for_storage`: every record is projected,
none is dropped. -/
def standardizeForStorage (papers : List EnrichedPaper) : List FinalRecord :=
  papers.map standardizePaper

/-- The count fields of the `processing_stats` dictionary built by
`process_papers` (the wall-clock duration and timestamp are not modelled). -/
structure PStats where
  input_papers : Nat
  validated_papers : Nat
  deduplicated_papers : Nat
  quality_filtered_papers : Nat
  final_papers : Nat
  duplicates_removed : Nat
  quality_filtered_out : Nat
  enrichment_applied : Nat
  deriving DecidableEq, Repr

/-- The `ProcessingResult` dataclass. -/
structure ProcessingResult where
  processed_papers : List FinalRecord
  duplicates_removed : Nat
  quality_filtered : Nat
  enriched_count : Nat
  processing_stats : PStats
  deriving DecidableEq, Repr

/-- Embeds `PaperProcessor.process_papers`: the five-stage pipeline, with the counts
the source computes (`duplicates_removed`, `quality_filtered`) and the final
statistics dictionary. -/
def processPapers (rawPapers : List Paper) (existingPaperIds : List String) :
    ProcessingResult :=
  let validatedPapers := validateAndCleanPapers rawPapers
  let deduplicatedPapers := deduplicatePapers validatedPapers existingPaperIds
  let duplicatesRemoved := validatedPapers.length - deduplicatedPapers.length
  let qualityFilteredPapers := assessAndFilterQuality MIN_QUALITY_SCORE deduplicatedPapers
  let qualityFiltered := deduplicatedPapers.length - qualityFilteredPapers.length
  let enrichedPapers := enrichPaperData qualityFilteredPapers
  let finalPapers := standardizeForStorage enrichedPapers
  { processed_papers := finalPapers
    duplicates_removed := duplicatesRemoved
    quality_filtered := qualityFiltered
    enriched_count := enrichedPapers.length
    processing_stats :=
      { input_papers := rawPapers.length
        validated_papers := validatedPapers.length
        deduplicated_papers := deduplicatedPapers.length
        quality_filtered_papers := qualityFilteredPapers.length
        final_papers := finalPapers.length
        duplicates_removed := duplicatesRemoved
        quality_filtered_out := qualityFiltered
        enrichment_applied := enrichedPapers.length } }

/-- The batch-level monitoring statistics of `get_processing_statistics`. -/
structure BatchStats where
  total_papers : Nat
  category_distribution : List (String × Nat)
  quality_mean : ℚ
  quality_min : ℚ
  quality_max : ℚ
  author_mean : ℚ
  author_min : Nat
  author_max : Nat
  highly_relevant_papers : Nat
  relevance_percentage : ℚ
  deriving DecidableEq, Repr

/-- Embeds `collections.Counter` over a list of category codes, in first-occurrence
order (Python dict insertion order). -/
def countOccurrences (l : List String) : List (String × Nat) :=
  l.foldl
    (fun acc c =>
      if acc.any (fun x => x.1 = c) then
        acc.map (fun x => if x.1 = c then (x.1, x.2 + 1) else x)
      else acc ++ [(c, 1)])
    []

/-- Embeds `Counter.most_common(10)`: stable sort by count descending, first ten. -/
def mostCommon10 (counts : List (String × Nat)) : List (String × Nat) :=
  ((counts.mergeSort (fun a b => decide (b.2 ≤ a.2))).take 10)

/-- Minimum of a list of rationals with Python `min` semantics on a
non-empty list (the source guards the empty case). -/
def listMinQ : List ℚ → ℚ
  | [] => 0
  | x :: xs => xs.foldl min x

/-- Maximum, as `listMinQ`. -/
def listMaxQ : List ℚ → ℚ
  | [] => 0
  | x :: xs => xs.foldl max x

/-- Minimum of a list of naturals, Python `min` on a non-empty list. -/
def listMinN : List Nat → Nat
  | [] => 0
  | x :: xs => xs.foldl min x

/-- Maximum, as `listMinN`. -/
def listMaxN : List Nat → Nat
  | [] => 0
  | x :: xs => xs.foldl max x

/-- Embeds `PaperProcessor.get_processing_statistics`: the empty batch returns the
empty dictionary (modelled as `none`); otherwise the aggregates over the
final batch. -/
def getProcessingStatistics (papers : List FinalRecord) : Option BatchStats :=
  if papers = [] then none
  else
    let allCategories := papers.flatMap (fun p => p.categories)
    let qualityScores := papers.map (fun p => p.quality_score.overall_score)
    let authorCounts : List Nat := papers.map (fun p => p.authors.length)
    let highlyRelevant :=
      (papers.filter (fun p => p.relevance_indicators.is_highly_relevant)).length
    some
      { total_papers := papers.length
        category_distribution := mostCommon10 (countOccurrences allCategories)
        quality_mean := qualityScores.sum / (qualityScores.length : ℚ)
        quality_min := listMinQ qualityScores
        quality_max := listMaxQ qualityScores
        author_mean := ((authorCounts.map (fun n => (n : ℚ))).sum) / (authorCounts.length : ℚ)
        author_min := listMinN authorCounts
        author_max := listMaxN authorCounts
        highly_relevant_papers := highlyRelevant
        relevance_percentage := ((highlyRelevant : ℚ) / (papers.length : ℚ)) * 100 }

/-! ## Concrete records used in witnesses and counterexamples -/

/-- Two authors, one relevant category, a 10-day-old date — every non-title,
non-abstract signal at its maximum. -/
def pMLStrong : Paper :=
  ⟨"id-strong", "ML", "", ["A", "B"], ["cs.AI"], some 10, none, none, none, none⟩

/-- Title `"ML"`, no abstract, and every other signal absent/neutral. -/
def pMLNeutral : Paper :=
  ⟨"id-neutral", "ML", "", [], [], none, none, none, none, none⟩

/-- Short title, identical title/abstract to `pShortB`, different identifier
and different authors. -/
def pShortA : Paper :=
  ⟨"id-a", "ML", "", ["X"], [], none, none, none, none, none⟩

/-- See `pShortA`. -/
def pShortB : Paper :=
  ⟨"id-b", "ML", "", ["Y"], [], none, none, none, none, none⟩

/-- Long identical titles, different identifiers and authors. -/
def pLongA : Paper :=
  ⟨"id-la", "Deep Learning Methods", "", ["X"], [], none, none, none, none, none⟩

/-- See `pLongA`. -/
def pLongB : Paper :=
  ⟨"id-lb", "Deep Learning Methods", "", ["Y"], [], none, none, none, none, none⟩

/-- Content in the title component, empty abstract, no authors. -/
def pTitleOnly : Paper :=
  ⟨"id-t", "x", "", [], [], none, none, none, none, none⟩

/-- The same content in the abstract component instead. -/
def pAbstractOnly : Paper :=
  ⟨"id-u", "", "x", [], [], none, none, none, none, none⟩

/-- Equal title, abstract and authors to `pHashTwin2`, but different
identifier, categories, date and venue. -/
def pHashTwin1 : Paper :=
  ⟨"tw-1", "Same Title", "Same abstract.", ["Z"], ["cs.AI"], some 5, none, none, none, none⟩

/-- See `pHashTwin1`. -/
def pHashTwin2 : Paper :=
  ⟨"tw-2", "Same Title", "Same abstract.", ["Z"], [], none, some "V", none, none, none⟩

/-- A well-formed raw record. -/
def pGoodRec : Paper :=
  ⟨"good-1", "Deep Learning Methods", "", [], [], none, none, none, none, none⟩

/-- A second well-formed raw record. -/
def pGoodRec2 : Paper :=
  ⟨"good-2", "Neural Model Survey Notes", "", [], [], none, none, none, none, none⟩

/-- A raw record whose title is non-empty but normalizes to the empty string
(it is a bare HTML tag). -/
def pBadRec : Paper :=
  ⟨"bad-1", "<b></b>", "", [], [], none, none, none, none, none⟩

/-! ## Helper lemmas: sub-score bounds -/

lemma scoreTitleQuality_bounds (title : String) :
    0 ≤ scoreTitleQuality title ∧ scoreTitleQuality title ≤ 1 := by
  unfold scoreTitleQuality
  split
  · norm_num
  · refine ⟨le_min ?_ (by norm_num), min_le_right _ _⟩
    split_ifs <;> norm_num

lemma scoreAbstractQuality_bounds (abstract : String) :
    0 ≤ scoreAbstractQuality abstract ∧ scoreAbstractQuality abstract ≤ 1 := by
  unfold scoreAbstractQuality
  split
  · norm_num
  · refine ⟨le_min ?_ (by norm_num), min_le_right _ _⟩
    dsimp only
    split_ifs <;> positivity

lemma scoreAuthorCredibility_bounds (authors : List String) :
    0 ≤ scoreAuthorCredibility authors ∧ scoreAuthorCredibility authors ≤ 1 := by
  unfold scoreAuthorCredibility
  split
  · norm_num
  · refine ⟨le_min ?_ (by norm_num), min_le_right _ _⟩
    split_ifs <;> norm_num

lemma scoreCategoryRelevance_bounds (categories : List String) :
    0 ≤ scoreCategoryRelevance categories ∧ scoreCategoryRelevance categories ≤ 1 := by
  unfold scoreCategoryRelevance
  split
  · norm_num
  · dsimp only
    split
    · norm_num
    · refine ⟨le_min ?_ (by norm_num), min_le_right _ _⟩
      positivity

lemma scorePublicationRecency_bounds (d : Option Int) :
    0 ≤ scorePublicationRecency d ∧ scorePublicationRecency d ≤ 1 := by
  cases d with
  | none => unfold scorePublicationRecency; norm_num
  | some daysOld =>
    unfold scorePublicationRecency
    dsimp only
    split_ifs <;> norm_num

lemma overall_score_eq (p : Paper) :
    (calculateQualityScore p).overall_score =
      1/4 * (calculateQualityScore p).title_score +
      3/10 * (calculateQualityScore p).abstract_score +
      3/20 * (calculateQualityScore p).author_score +
      1/5 * (calculateQualityScore p).category_score +
      1/10 * (calculateQualityScore p).recency_score := rfl

lemma overall_score_bounds (p : Paper) :
    0 ≤ (calculateQualityScore p).overall_score ∧
      (calculateQualityScore p).overall_score ≤ 1 := by
  have ht := scoreTitleQuality_bounds p.title
  have ha := scoreAbstractQuality_bounds p.abstract
  have hau := scoreAuthorCredibility_bounds p.authors
  have hc := scoreCategoryRelevance_bounds p.categories
  have hr := scorePublicationRecency_bounds p.pubDaysOld
  have h : calculateQualityScore p =
      { title_score := scoreTitleQuality p.title
        abstract_score := scoreAbstractQuality p.abstract
        author_score := scoreAuthorCredibility p.authors
        category_score := scoreCategoryRelevance p.categories
        recency_score := scorePublicationRecency p.pubDaysOld
        overall_score :=
          (1/4) * scoreTitleQuality p.title + (3/10) * scoreAbstractQuality p.abstract +
            (3/20) * scoreAuthorCredibility p.authors +
            (1/5) * scoreCategoryRelevance p.categories +
            (1/10) * scorePublicationRecency p.pubDaysOld } := rfl
  rw [h]
  dsimp only
  constructor <;> linarith [ht.1, ht.2, ha.1, ha.2, hau.1, hau.2, hc.1, hc.2, hr.1, hr.2]

/-- C4: for every record, each of the five sub-scores (title, abstract,
author, category, recency) and the overall score lie in `[0, 1]`, and the
overall score equals the fixed weighted sum
`0.25·title + 0.30·abstract + 0.15·author + 0.20·category + 0.10·recency`. -/
theorem quality_score_bounds_and_formula (p : Paper) :
    (0 ≤ (calculateQualityScore p).title_score ∧ (calculateQualityScore p).title_score ≤ 1) ∧
    (0 ≤ (calculateQualityScore p).abstract_score ∧
      (calculateQualityScore p).abstract_score ≤ 1) ∧
    (0 ≤ (calculateQualityScore p).author_score ∧ (calculateQualityScore p).author_score ≤ 1) ∧
    (0 ≤ (calculateQualityScore p).category_score ∧
      (calculateQualityScore p).category_score ≤ 1) ∧
    (0 ≤ (calculateQualityScore p).recency_score ∧
      (calculateQualityScore p).recency_score ≤ 1) ∧
    (0 ≤ (calculateQualityScore p).overall_score ∧
      (calculateQualityScore p).overall_score ≤ 1) ∧
    (calculateQualityScore p).overall_score =
      25/100 * (calculateQualityScore p).title_score +
      30/100 * (calculateQualityScore p).abstract_score +
      15/100 * (calculateQualityScore p).author_score +
      20/100 * (calculateQualityScore p).category_score +
      10/100 * (calculateQualityScore p).recency_score := by
  refine ⟨scoreTitleQuality_bounds p.title, scoreAbstractQuality_bounds p.abstract,
    scoreAuthorCredibility_bounds p.authors, scoreCategoryRelevance_bounds p.categories,
    scorePublicationRecency_bounds p.pubDaysOld, overall_score_bounds p, ?_⟩
  rw [overall_score_eq p]
  ring

/-- C5: quality filtering is monotone in the threshold — every record that
survives the filter at the larger threshold also survives at the smaller. -/
theorem quality_filter_monotone (papers : List Paper) (t1 t2 : ℚ) (h : t1 ≤ t2) :
    ∀ x ∈ assessAndFilterQuality t2 papers, x ∈ assessAndFilterQuality t1 papers := by
  intro x hx
  unfold assessAndFilterQuality at hx ⊢
  rcases List.mem_filterMap.mp hx with ⟨p, hp, hsome⟩
  refine List.mem_filterMap.mpr ⟨p, hp, ?_⟩
  by_cases ht2 : t2 ≤ (calculateQualityScore p).overall_score
  · rw [if_pos ht2] at hsome
    rw [if_pos (le_trans h ht2)]
    exact hsome
  · rw [if_neg ht2] at hsome
    exact absurd hsome (by simp)

/-- C5 witness: the theorem applied at the concrete batch `[pMLStrong]` and
thresholds `t1 = t2 = 0` — `pMLStrong` survives at threshold `0` (its overall
score is non-negative), so it survives at threshold `0`. -/
theorem quality_filter_monotone_witness :
    (pMLStrong, calculateQualityScore pMLStrong) ∈
      assessAndFilterQuality 0 [pMLStrong] :=
  quality_filter_monotone [pMLStrong] 0 0 le_rfl
    (pMLStrong, calculateQualityScore pMLStrong)
    (by
      unfold assessAndFilterQuality
      refine List.mem_filterMap.mpr ⟨pMLStrong, List.mem_singleton_self _, ?_⟩
      rw [if_pos (overall_score_bounds pMLStrong).1])

/-! ## Helper lemmas: deduplication -/

lemma title_ne_empty_of_len {t : String} (h : 10 ≤ String.length t) : t ≠ "" := by
  intro hcontra
  rw [hcontra] at h
  simp [String.length] at h

lemma isNearDuplicateTitle_nil (t : String) : isNearDuplicateTitle t [] = false := by
  unfold isNearDuplicateTitle
  split <;> simp

lemma isNearDuplicateTitle_short {t : String} (h : String.length t < 10)
    (l : List Paper) : isNearDuplicateTitle t l = false := by
  unfold isNearDuplicateTitle
  rw [if_pos (Or.inr h)]

lemma jaccardQ_comm (a b : String) : jaccardQ a b = jaccardQ b a := by
  unfold jaccardQ
  rw [Finset.inter_comm, Finset.union_comm]

lemma not_nearDuplicate_jaccard {p : Paper} {l : List Paper}
    (h : isNearDuplicateTitle p.title l = false) :
    ∀ q ∈ l, nearOkRel q p := by
  intro q hq h10q h10p
  unfold isNearDuplicateTitle at h
  rw [if_neg (by push_neg; exact ⟨title_ne_empty_of_len h10p, h10p⟩)] at h
  have hqfalse := List.any_eq_false.mp h q hq
  dsimp only at hqfalse
  rw [if_neg (title_ne_empty_of_len h10q)] at hqfalse
  rw [decide_eq_true_eq] at hqfalse
  have hnot := hqfalse
  rw [not_and_or, not_not, not_lt] at hnot
  unfold jaccardQ
  rw [Finset.inter_comm, Finset.union_comm]
  rcases hnot with hzero | hle
  · rw [hzero]
    norm_num
  · exact hle

lemma dedupStep_inv {existingIds : List String} {st : DedupState} (p : Paper)
    (h : DedupInv existingIds st) : DedupInv existingIds (dedupStep st p) := by
  obtain ⟨hA, hB, hC, hD, hE, hF, hG⟩ := h
  unfold dedupStep
  split_ifs with h1 h2 h3
  · exact ⟨hA, hB, hC, hD, hE, hF, hG⟩
  · exact ⟨hA, hB, hC, hD, hE, hF, hG⟩
  · exact ⟨hA, hB, hC, hD, hE, hF, hG⟩
  · have h3' : isNearDuplicateTitle p.title st.out = false := by
      simpa using h3
    refine ⟨?_, ?_, ?_, ?_, ?_, ?_, ?_⟩
    · intro q hq
      rcases List.mem_append.mp hq with hql | hqr
      · exact List.mem_cons_of_mem _ (hA q hql)
      · rw [List.mem_singleton.mp hqr]
        exact List.mem_cons_self _ _
    · intro q hq
      rcases List.mem_append.mp hq with hql | hqr
      · exact List.mem_cons_of_mem _ (hB q hql)
      · rw [List.mem_singleton.mp hqr]
        exact List.mem_cons_self _ _
    · intro i hi
      exact List.mem_cons_of_mem _ (hC i hi)
    · intro q hq
      rcases List.mem_append.mp hq with hql | hqr
      · exact hD q hql
      · rw [List.mem_singleton.mp hqr]
        intro hcontra
        exact h1 (hC _ hcontra)
    · refine List.pairwise_append.mpr ⟨hE, List.pairwise_singleton _ _, ?_⟩
      intro q hql r hqr
      rw [List.mem_singleton.mp hqr]
      intro hcontra
      exact h1 (hcontra ▸ hA q hql)
    · refine List.pairwise_append.mpr ⟨hF, List.pairwise_singleton _ _, ?_⟩
      intro q hql r hqr
      rw [List.mem_singleton.mp hqr]
      intro hcontra
      exact h2 (hcontra ▸ hB q hql)
    · refine List.pairwise_append.mpr ⟨hG, List.pairwise_singleton _ _, ?_⟩
      intro q hql r hqr
      rw [List.mem_singleton.mp hqr]
      exact not_nearDuplicate_jaccard h3' q hql

lemma foldl_dedupStep_inv (existingIds : List String) (papers : List Paper) :
    ∀ st, DedupInv existingIds st → DedupInv existingIds (papers.foldl dedupStep st) := by
  induction papers with
  | nil => intro st h; exact h
  | cons p ps ih =>
    intro st h
    rw [List.foldl_cons]
    exact ih _ (dedupStep_inv p h)

lemma dedupInv_init (existingIds : List String) :
    DedupInv existingIds ⟨existingIds, [], []⟩ :=
  ⟨by simp, by simp, fun _ hi => hi, by simp, List.Pairwise.nil, List.Pairwise.nil,
    List.Pairwise.nil⟩

lemma dedup_inv_out (papers : List Paper) (existingIds : List String) :
    DedupInv existingIds (papers.foldl dedupStep ⟨existingIds, [], []⟩) :=
  foldl_dedupStep_inv existingIds papers _ (dedupInv_init existingIds)

lemma dedupStep_out (st : DedupState) (p : Paper) :
    (dedupStep st p).out = st.out ∨ (dedupStep st p).out = st.out ++ [p] := by
  unfold dedupStep
  split_ifs <;> simp

lemma foldl_dedupStep_out_append (papers : List Paper) :
    ∀ st : DedupState, ∃ t, (papers.foldl dedupStep st).out = st.out ++ t ∧
      t.Sublist papers := by
  induction papers with
  | nil => intro st; exact ⟨[], by simp, List.nil_sublist _⟩
  | cons p ps ih =>
    intro st
    rw [List.foldl_cons]
    obtain ⟨t, ht, hs⟩ := ih (dedupStep st p)
    rcases dedupStep_out st p with hout | hout
    · exact ⟨t, by rw [ht, hout], hs.cons p⟩
    · refine ⟨p :: t, ?_, hs.cons₂ p⟩
      rw [ht, hout, List.append_assoc]
      rfl

lemma dedup_sublist (papers : List Paper) (existingIds : List String) :
    (deduplicatePapers papers existingIds).Sublist papers := by
  obtain ⟨t, ht, hs⟩ := foldl_dedupStep_out_append papers ⟨existingIds, [], []⟩
  unfold deduplicatePapers
  rw [ht]
  simpa using hs

/-- C1: for every input batch and every known-identifier set, the
deduplicated output has pairwise distinct `ContentFingerprint`s, pairwise
distinct identifiers, and no output identifier belongs to the
known-identifier set. -/
theorem dedup_invariant (papers : List Paper) (existingIds : List String) :
    (deduplicatePapers papers existingIds).Pairwise
        (fun p q => contentHash p ≠ contentHash q) ∧
    (deduplicatePapers papers existingIds).Pairwise
        (fun p q => p.paper_id ≠ q.paper_id) ∧
    ∀ p ∈ deduplicatePapers papers existingIds, p.paper_id ∉ existingIds := by
  have h := dedup_inv_out papers existingIds
  exact ⟨h.2.2.2.2.2.1, h.2.2.2.2.1, h.2.2.2.1⟩

/-- C3: Jaccard similarity of (lowercased) title word sets is symmetric; in
every deduplicated output, any two distinct surviving records whose titles
are both at least 10 characters long have Jaccard similarity at most `0.8`;
and a title shorter than 10 characters is exempt — it is never judged a
near-duplicate. -/
theorem dedup_near_duplicate_invariant (papers : List Paper) (existingIds : List String) :
    (∀ a b : String, jaccardQ a b = jaccardQ b a) ∧
    (deduplicatePapers papers existingIds).Pairwise
      (fun p q => 10 ≤ String.length p.title → 10 ≤ String.length q.title →
        jaccardQ p.title q.title ≤ 4/5) ∧
    (∀ (t : String) (l : List Paper), String.length t < 10 →
      isNearDuplicateTitle t l = false) := by
  refine ⟨jaccardQ_comm, ?_, fun t l h => isNearDuplicateTitle_short h l⟩
  exact (dedup_inv_out papers existingIds).2.2.2.2.2.2

lemma contentHash_eq_of_fields {p q : Paper} (ht : p.title = q.title)
    (ha : p.abstract = q.abstract) (hau : p.authors = q.authors) :
    contentHash p = contentHash q := by
  unfold contentHash
  rw [ht, ha, hau]

lemma dedupStep_accept {st : DedupState} {p : Paper}
    (h1 : p.paper_id ∉ st.seenIds) (h2 : contentHash p ∉ st.seenHashes)
    (h3 : isNearDuplicateTitle p.title st.out = false) :
    dedupStep st p =
      ⟨p.paper_id :: st.seenIds, contentHash p :: st.seenHashes, st.out ++ [p]⟩ := by
  unfold dedupStep
  rw [if_neg h1, if_neg h2, if_neg (by simp [h3])]

lemma dedupStep_drop_hash {st : DedupState} {p : Paper}
    (h1 : p.paper_id ∉ st.seenIds) (h2 : contentHash p ∈ st.seenHashes) :
    dedupStep st p = st := by
  unfold dedupStep
  rw [if_neg h1, if_pos h2]

lemma dedupStep_drop_near {st : DedupState} {p : Paper}
    (h1 : p.paper_id ∉ st.seenIds) (h2 : contentHash p ∉ st.seenHashes)
    (h3 : isNearDuplicateTitle p.title st.out = true) :
    dedupStep st p = st := by
  unfold dedupStep
  rw [if_neg h1, if_neg h2, if_pos h3]

lemma near_dup_self {p1 p2 : Paper} (ht : p1.title = p2.title)
    (h10 : 10 ≤ String.length p1.title) (hw : wordSet p1.title ≠ ∅) :
    isNearDuplicateTitle p2.title [p1] = true := by
  unfold isNearDuplicateTitle
  rw [if_neg (by push_neg; rw [← ht]; exact ⟨title_ne_empty_of_len h10, h10⟩)]
  rw [List.any_cons, List.any_nil, Bool.or_false]
  dsimp only
  rw [if_neg (title_ne_empty_of_len h10)]
  rw [decide_eq_true_eq]
  rw [← ht, Finset.inter_self, Finset.union_self]
  have hcard : (wordSet p1.title).card ≠ 0 := fun hc => hw (Finset.card_eq_zero.mp hc)
  refine ⟨hcard, ?_⟩
  rw [div_self (by exact_mod_cast hcard)]
  norm_num

/-- C2 (amended): the deduplicated output is an order-preserving subsequence
of the input; and for a batch of two records with identical titles and
abstracts but different identifiers, only the first (by input order)
survives, provided the records also have equal author lists, or the shared
title is at least 10 characters long and has at least one word.  (Without
that proviso the two records can have distinct fingerprints — the authors
differ — while the short title exempts them from the near-duplicate check,
and both survive; see the counterexample.) -/
theorem dedup_order_and_first_survivor :
    (∀ (papers : List Paper) (existingIds : List String),
        (deduplicatePapers papers existingIds).Sublist papers) ∧
    (∀ p1 p2 : Paper, p1.title = p2.title → p1.abstract = p2.abstract →
        p1.paper_id ≠ p2.paper_id →
        (p1.authors = p2.authors ∨
          (10 ≤ String.length p1.title ∧ wordSet p1.title ≠ ∅)) →
        deduplicatePapers [p1, p2] [] = [p1]) := by
  refine ⟨dedup_sublist, ?_⟩
  intro p1 p2 ht ha hid hcond
  unfold deduplicatePapers
  rw [List.foldl_cons, List.foldl_cons, List.foldl_nil]
  have hst1 : dedupStep ⟨[], [], []⟩ p1 =
      ⟨[p1.paper_id], [contentHash p1], [p1]⟩ := by
    rw [dedupStep_accept (List.not_mem_nil _) (List.not_mem_nil _)
      (isNearDuplicateTitle_nil _)]
    rfl
  rw [hst1]
  have hid2 : p2.paper_id ∉ ([p1.paper_id] : List String) := by
    simp only [List.mem_singleton]
    exact fun hc => hid hc.symm
  by_cases hh : contentHash p2 ∈ ([contentHash p1] : List String)
  · rw [dedupStep_drop_hash hid2 hh]
  · rcases hcond with hau | ⟨h10, hw⟩
    · exact absurd (by
        simp only [List.mem_singleton]
        exact (contentHash_eq_of_fields ht ha hau).symm) hh
    · rw [dedupStep_drop_near hid2 hh (near_dup_self ht h10 hw)]

/-- C2 counterexample: `pShortA` and `pShortB` have identical titles and
abstracts and different identifiers, yet both survive deduplication — the
title is shorter than 10 characters and the author lists differ, so neither
the fingerprint check nor the near-duplicate check fires. -/
theorem dedup_first_survivor_counterexample :
    pShortA.title = pShortB.title ∧ pShortA.abstract = pShortB.abstract ∧
    pShortA.paper_id ≠ pShortB.paper_id ∧
    deduplicatePapers [pShortA, pShortB] [] = [pShortA, pShortB] := by
  refine ⟨rfl, rfl, by decide, ?_⟩
  decide

/-- C2 witness: the amended theorem applied to the concrete batch
`[pLongA, pLongB]` — identical 21-character titles, different identifiers
and authors — keeps only the first record. -/
theorem dedup_first_survivor_witness :
    deduplicatePapers [pLongA, pLongB] [] = [pLongA] :=
  dedup_order_and_first_survivor.2 pLongA pLongB rfl rfl (by decide)
    (Or.inr ⟨by decide, by decide⟩)

/-! ## Helper lemmas: validation -/

lemma paperDataCheck_none_iff (c : Paper) :
    paperDataCheck c = none ↔ (c.paper_id = "" ∨ c.title = "") := by
  unfold paperDataCheck
  split_ifs with h
  · simp [h]
  · simp [h]

lemma paperDataCheck_some {c q : Paper} (h : paperDataCheck c = some q) :
    q = c ∧ c.paper_id ≠ "" ∧ c.title ≠ "" := by
  unfold paperDataCheck at h
  split_ifs at h with hcond
  · push_neg at hcond
    exact ⟨(Option.some_injective _ h).symm, hcond⟩

lemma cleanPaperText_paper_id (p : Paper) : (cleanPaperText p).paper_id = p.paper_id := rfl

lemma cleanPaperText_title (p : Paper) :
    (cleanPaperText p).title =
      if p.title ≠ "" then stripLeadingArxiv (cleanText p.title) else p.title := rfl

/-- C6: the validator accepts only records with non-empty identifier and
title; a record is rejected exactly when its identifier, or its title after
normalization (cleaning plus arXiv-marker stripping — the identifier is not
normalized), is empty; and a rejected record is dropped locally — validation
of the rest of the batch continues unchanged around it. -/
theorem validator_rejects_iff (papers : List Paper) :
    (∀ q ∈ validateAndCleanPapers papers, q.paper_id ≠ "" ∧ q.title ≠ "") ∧
    (∀ p : Paper, validatePaper p = none ↔
      (p.paper_id = "" ∨ stripLeadingArxiv (cleanText p.title) = "")) ∧
    (∀ (pre : List Paper) (bad : Paper) (post : List Paper),
      validatePaper bad = none →
      validateAndCleanPapers (pre ++ bad :: post) =
        validateAndCleanPapers pre ++ validateAndCleanPapers post) := by
  refine ⟨?_, ?_, ?_⟩
  · intro q hq
    rcases List.mem_filterMap.mp hq with ⟨p, _, hsome⟩
    unfold validatePaper at hsome
    split_ifs at hsome with hguard
    obtain ⟨hqc, hid, hti⟩ := paperDataCheck_some hsome
    subst hqc
    exact ⟨hid, hti⟩
  · intro p
    unfold validatePaper
    split_ifs with hguard
    · rcases hguard with hid | hti
      · simp [hid]
      · have hclean : cleanText p.title = "" := by rw [hti]; rfl
        have hstrip : stripLeadingArxiv (cleanText p.title) = "" := by
          rw [hclean]; rfl
        simp [hstrip]
    · push_neg at hguard
      rw [paperDataCheck_none_iff, cleanPaperText_paper_id, cleanPaperText_title,
        if_pos hguard.2]
  · intro pre bad post hbad
    unfold validateAndCleanPapers
    rw [List.filterMap_append, List.filterMap_cons, hbad]

/-- C6 witness: the theorem applied at the concrete batch
`[pGoodRec, pBadRec, pGoodRec2]` — `pBadRec`'s title `"<b></b>"` is non-empty
but normalizes to the empty string, so it is rejected and the two
well-formed records around it are validated as if it were absent. -/
theorem validator_rejects_iff_witness :
    validateAndCleanPapers ([pGoodRec] ++ pBadRec :: [pGoodRec2]) =
      validateAndCleanPapers [pGoodRec] ++ validateAndCleanPapers [pGoodRec2] :=
  (validator_rejects_iff []).2.2 [pGoodRec] pBadRec [pGoodRec2] (by decide)

/-! ## Helper lemmas: concrete score evaluations -/

lemma calc_title_field (p : Paper) :
    (calculateQualityScore p).title_score = scoreTitleQuality p.title := rfl

lemma calc_abstract_field (p : Paper) :
    (calculateQualityScore p).abstract_score = scoreAbstractQuality p.abstract := rfl

lemma calc_author_field (p : Paper) :
    (calculateQualityScore p).author_score = scoreAuthorCredibility p.authors := rfl

lemma calc_category_field (p : Paper) :
    (calculateQualityScore p).category_score = scoreCategoryRelevance p.categories := rfl

lemma calc_recency_field (p : Paper) :
    (calculateQualityScore p).recency_score = scorePublicationRecency p.pubDaysOld := rfl

lemma scoreTitleQuality_ML : scoreTitleQuality "ML" = 3/10 := by
  unfold scoreTitleQuality
  rw [if_neg (by decide)]
  dsimp only
  rw [if_neg (by decide), if_pos (by decide), if_neg (by decide)]
  rw [min_eq_left (by norm_num)]
  norm_num

lemma scoreAbstractQuality_empty : scoreAbstractQuality "" = 0 := by
  unfold scoreAbstractQuality
  rw [if_pos rfl]

lemma scoreAuthorCredibility_two : scoreAuthorCredibility ["A", "B"] = 1 := by
  unfold scoreAuthorCredibility
  rw [if_neg (by decide)]
  dsimp only
  rw [if_pos (by decide), if_pos (by decide)]
  rw [min_eq_right (by norm_num)]

lemma scoreCategoryRelevance_one : scoreCategoryRelevance ["cs.AI"] = 1 := by
  unfold scoreCategoryRelevance
  rw [if_neg (by decide)]
  dsimp only
  rw [if_neg (by decide)]
  have h : ((["cs.AI"] : List String).filter
      (fun cat => decide (cat ∈ relevantCategories))).length = 1 := by decide
  rw [h]
  norm_num

lemma scorePublicationRecency_ten : scorePublicationRecency (some 10) = 1 := by
  unfold scorePublicationRecency
  dsimp only
  rw [if_pos (by norm_num)]

lemma overall_pMLStrong : (calculateQualityScore pMLStrong).overall_score = 21/40 := by
  rw [overall_score_eq, calc_title_field, calc_abstract_field, calc_author_field,
    calc_category_field, calc_recency_field]
  show 1/4 * scoreTitleQuality "ML" + 3/10 * scoreAbstractQuality "" +
      3/20 * scoreAuthorCredibility ["A", "B"] + 1/5 * scoreCategoryRelevance ["cs.AI"] +
      1/10 * scorePublicationRecency (some 10) = 21/40
  rw [scoreTitleQuality_ML, scoreAbstractQuality_empty, scoreAuthorCredibility_two,
    scoreCategoryRelevance_one, scorePublicationRecency_ten]
  norm_num

lemma scoreAuthorCredibility_none : scoreAuthorCredibility [] = 3/10 := by
  unfold scoreAuthorCredibility
  rw [if_pos rfl]

lemma scoreCategoryRelevance_none : scoreCategoryRelevance [] = 0 := by
  unfold scoreCategoryRelevance
  rw [if_pos rfl]

lemma scorePublicationRecency_none : scorePublicationRecency none = 1/2 := rfl

/-- C7 (amended): a record with title `"ML"` and no abstract always gets
abstract score `0` and title score `3/10 ≤ 0.4` (the length check fails),
and its overall score is at most `0.525`; when its author, category and date
signals are also absent (scored `0.3`, `0.0` and neutral `0.5`), the overall
score is exactly `0.17`, well below the default `0.4` threshold, and the
record is filtered out.  (It is NOT filtered out for every choice of the
other fields: favourable authors, categories and recency reach `0.525 ≥
0.4`; see the counterexample.) -/
theorem short_title_no_abstract_amended (p : Paper) (ht : p.title = "ML")
    (ha : p.abstract = "") :
    (scoreAbstractQuality p.abstract = 0 ∧ scoreTitleQuality p.title ≤ 2/5 ∧
      (calculateQualityScore p).overall_score ≤ 21/40) ∧
    (p.authors = [] → p.categories = [] → p.pubDaysOld = none →
      ((calculateQualityScore p).overall_score = 17/100 ∧
        assessAndFilterQuality MIN_QUALITY_SCORE [p] = [])) := by
  have hts : (calculateQualityScore p).title_score = 3/10 := by
    rw [calc_title_field, ht, scoreTitleQuality_ML]
  have has : (calculateQualityScore p).abstract_score = 0 := by
    rw [calc_abstract_field, ha, scoreAbstractQuality_empty]
  constructor
  · refine ⟨by rw [ha, scoreAbstractQuality_empty], by rw [ht, scoreTitleQuality_ML]; norm_num, ?_⟩
    have hau := scoreAuthorCredibility_bounds p.authors
    have hc := scoreCategoryRelevance_bounds p.categories
    have hr := scorePublicationRecency_bounds p.pubDaysOld
    rw [overall_score_eq, hts, has, calc_author_field, calc_category_field,
      calc_recency_field]
    linarith [hau.2, hc.2, hr.2]
  · intro hau hc hr
    have hov : (calculateQualityScore p).overall_score = 17/100 := by
      rw [overall_score_eq, hts, has, calc_author_field, calc_category_field,
        calc_recency_field, hau, hc, hr, scoreAuthorCredibility_none,
        scoreCategoryRelevance_none, scorePublicationRecency_none]
      norm_num
    refine ⟨hov, ?_⟩
    unfold assessAndFilterQuality
    rw [List.filterMap_cons]
    dsimp only
    rw [if_neg (by rw [hov]; unfold MIN_QUALITY_SCORE; norm_num)]
    rfl

/-- C7 counterexample: `pMLStrong` has title `"ML"` and no abstract, yet with
two authors, one relevant category and a 10-day-old date its overall score is
`0.525 ≥ 0.4`, so it is NOT filtered out by the default quality threshold —
the claim's "regardless of its other fields" fails. -/
theorem short_title_no_abstract_counterexample :
    pMLStrong.title = "ML" ∧ pMLStrong.abstract = "" ∧
    (calculateQualityScore pMLStrong).overall_score = 21/40 ∧
    MIN_QUALITY_SCORE ≤ (calculateQualityScore pMLStrong).overall_score ∧
    assessAndFilterQuality MIN_QUALITY_SCORE [pMLStrong] =
      [(pMLStrong, calculateQualityScore pMLStrong)] := by
  have hok : MIN_QUALITY_SCORE ≤ (calculateQualityScore pMLStrong).overall_score := by
    rw [overall_pMLStrong]
    unfold MIN_QUALITY_SCORE
    norm_num
  refine ⟨rfl, rfl, overall_pMLStrong, hok, ?_⟩
  unfold assessAndFilterQuality
  rw [List.filterMap_cons]
  dsimp only
  rw [if_pos hok]
  rfl

/-- C7 witness: the amended theorem applied at the concrete record
`pMLNeutral` (title `"ML"`, no abstract, no authors, no categories, no
date) — it is filtered out at the default threshold. -/
theorem short_title_no_abstract_witness :
    assessAndFilterQuality MIN_QUALITY_SCORE [pMLNeutral] = [] :=
  ((short_title_no_abstract_amended pMLNeutral rfl rfl).2 rfl rfl rfl).2

/-! ## Content fingerprint, empty batch and stats reconciliation -/

/-- C8 (amended): the `ContentFingerprint` is a deterministic function of
exactly the triple (lowercased title, first 500 characters of the lowercased
abstract, sorted author list joined by `"|"`) — equal triples give equal
fingerprints and no other field enters — but the digested string is the
`"|"`-join of only the NON-EMPTY components of the triple, so for a record
with an empty component it is not the digest of the full triple, and records
with different triples can share a fingerprint. -/
theorem content_hash_function_of_triple :
    (∀ p q : Paper, contentTriple p = contentTriple q → contentHash p = contentHash q) ∧
    (∀ p : Paper, contentHash p = joinNonEmptyTriple (contentTriple p)) := by
  have hchar : ∀ p : Paper, contentHash p = joinNonEmptyTriple (contentTriple p) :=
    fun _ => rfl
  refine ⟨fun p q h => ?_, hchar⟩
  rw [hchar p, hchar q, h]

/-- C8 witness: the theorem applied at the concrete records `pHashTwin1` and
`pHashTwin2`, which agree on the fingerprint triple but differ in
identifier, categories, publication date and venue. -/
theorem content_hash_function_of_triple_witness :
    contentHash pHashTwin1 = contentHash pHashTwin2 :=
  content_hash_function_of_triple.1 pHashTwin1 pHashTwin2 (by decide)

/-- C8 counterexample: `pTitleOnly` (title `"x"`, empty abstract) and
`pAbstractOnly` (empty title, abstract `"x"`) have different fingerprint
triples yet equal fingerprints — both digest the string `"x"` — and
`pTitleOnly`'s fingerprint differs from the digest of its full triple
(`"x||"`), refuting "it equals the digest of that triple … including records
where one or more components of the triple are empty". -/
theorem content_hash_counterexample :
    contentTriple pTitleOnly ≠ contentTriple pAbstractOnly ∧
    contentHash pTitleOnly = contentHash pAbstractOnly ∧
    contentHash pTitleOnly ≠ contentHashSpec pTitleOnly := by
  refine ⟨by decide, by decide, by decide⟩

/-- C9: the pipeline on the empty batch returns the empty batch and
all-zero counts, and the statistics reporter returns the empty structure
(rather than failing) on an empty final batch. -/
theorem empty_batch_behavior (existingIds : List String) :
    processPapers [] existingIds =
      { processed_papers := []
        duplicates_removed := 0
        quality_filtered := 0
        enriched_count := 0
        processing_stats :=
          { input_papers := 0
            validated_papers := 0
            deduplicated_papers := 0
            quality_filtered_papers := 0
            final_papers := 0
            duplicates_removed := 0
            quality_filtered_out := 0
            enrichment_applied := 0 } } ∧
    getProcessingStatistics [] = none := ⟨rfl, rfl⟩

/-- C10: the counts in the processing stats reconcile — every validated
record is either deduplicated output or a removed duplicate, every
deduplicated record either survives quality filtering or is filtered out,
and enrichment and standardization preserve the batch size, so the final
count equals the quality-filtered count equals the enrichment count. -/
theorem processing_stats_reconcile (rawPapers : List Paper) (existingIds : List String) :
    (processPapers rawPapers existingIds).processing_stats.validated_papers =
        (processPapers rawPapers existingIds).processing_stats.deduplicated_papers +
          (processPapers rawPapers existingIds).processing_stats.duplicates_removed ∧
    (processPapers rawPapers existingIds).processing_stats.deduplicated_papers =
        (processPapers rawPapers existingIds).processing_stats.quality_filtered_papers +
          (processPapers rawPapers existingIds).processing_stats.quality_filtered_out ∧
    (processPapers rawPapers existingIds).processing_stats.final_papers =
        (processPapers rawPapers existingIds).processing_stats.quality_filtered_papers ∧
    (processPapers rawPapers existingIds).processing_stats.quality_filtered_papers =
        (processPapers rawPapers existingIds).processing_stats.enrichment_applied := by
  have hds : (deduplicatePapers (validateAndCleanPapers rawPapers) existingIds).length ≤
      (validateAndCleanPapers rawPapers).length :=
    (dedup_sublist (validateAndCleanPapers rawPapers) existingIds).length_le
  have hql : (assessAndFilterQuality MIN_QUALITY_SCORE
        (deduplicatePapers (validateAndCleanPapers rawPapers) existingIds)).length ≤
      (deduplicatePapers (validateAndCleanPapers rawPapers) existingIds).length :=
    List.length_filterMap_le _ _
  refine ⟨?_, ?_, ?_, ?_⟩
  · show (validateAndCleanPapers rawPapers).length =
      (deduplicatePapers (validateAndCleanPapers rawPapers) existingIds).length +
        ((validateAndCleanPapers rawPapers).length -
          (deduplicatePapers (validateAndCleanPapers rawPapers) existingIds).length)
    omega
  · show (deduplicatePapers (validateAndCleanPapers rawPapers) existingIds).length =
      (assessAndFilterQuality MIN_QUALITY_SCORE
          (deduplicatePapers (validateAndCleanPapers rawPapers) existingIds)).length +
        ((deduplicatePapers (validateAndCleanPapers rawPapers) existingIds).length -
          (assessAndFilterQuality MIN_QUALITY_SCORE
            (deduplicatePapers (validateAndCleanPapers rawPapers) existingIds)).length)
    omega
  · show (standardizeForStorage (enrichPaperData (assessAndFilterQuality MIN_QUALITY_SCORE
        (deduplicatePapers (validateAndCleanPapers rawPapers) existingIds)))).length =
      (assessAndFilterQuality MIN_QUALITY_SCORE
        (deduplicatePapers (validateAndCleanPapers rawPapers) existingIds)).length
    unfold standardizeForStorage enrichPaperData
    rw [List.length_map, List.length_map]
  · show (assessAndFilterQuality MIN_QUALITY_SCORE
        (deduplicatePapers (validateAndCleanPapers rawPapers) existingIds)).length =
      (enrichPaperData (assessAndFilterQuality MIN_QUALITY_SCORE
        (deduplicatePapers (validateAndCleanPapers rawPapers) existingIds))).length
    unfold enrichPaperData
    rw [List.length_map]

end PaperPipeline
